import Mathlib

/-!
Verification development for the age-eligibility credential program
(`main.go`): a shallow embedding of the credential data model, the
`AgeCheckCircuit` constraint, the gnark/groth16 backend boundary, and the
issuance/verification pipeline, together with theorems settling the
specification's claims about them.

Conventions of the embedding:
* Go machine integers are modelled as `Int`; field elements of the BN254
  scalar field are canonical representatives in `Nat` (explicitly reduced
  `% bn254r`).
* Fallible Go functions returning `(..., error)` become `Except`-valued
  functions; each `fmt.Errorf` site is one constructor of an error type.
* `time.Now()` is an explicit parameter (`TimeNow`), since the year and the
  nanosecond timestamp it yields are ambient inputs of `IssueCredential`.
* The proving backend (gnark's groth16 over BN254) is an external
  collaborator; it is modelled from its documented interface semantics:
  `Prove` succeeds exactly when the assignment satisfies the compiled
  constraints and binds the proof to the public input and the setup run,
  `Verify` accepts exactly a proof bound to the same public witness and the
  same setup run.
-/

set_option linter.unusedVariables false

deriving instance DecidableEq for Except

/-- Order of the BN254 scalar field, the value of `ecc.BN254.ScalarField()`
used by `InitCircuit`, `generateZKProof` and `verifyZKProof`. -/
def bn254r : Nat :=
  21888242871839275222246405745257275088548364400416034343698204186575808495617

/-- Canonical BN254 field element of a Go integer, as produced when an
assignment value is mapped into the scalar field by `frontend.NewWitness`. -/
def toF (i : Int) : Nat := (i % (bn254r : Int)).toNat

/-- gnark `api.Sub` on canonical field elements: subtraction modulo the
scalar field order. -/
def apiSub (a b : Nat) : Nat := (a + (bn254r - b)) % bn254r

/-- gnark `api.Cmp` on canonical field elements: `1` if `a > b`, `0` if
`a = b`, `-1` (that is, `bn254r - 1`) if `a < b`, comparing the canonical
integer representatives. -/
def apiCmp (a b : Nat) : Nat :=
  if b < a then 1 else if a = b then 0 else bn254r - 1

/-- A concrete assignment to `AgeCheckCircuit`'s variables: `BirthYear` is
the private input, `CurrentYear` the public input, both Go `int`s. -/
structure AgeCheckCircuit where
  BirthYear : Int
  CurrentYear : Int
deriving DecidableEq, Repr

/-- A full witness over the scalar field, as built by `frontend.NewWitness`
from an `AgeCheckCircuit` assignment. -/
structure FullWitness where
  birthYear : Nat
  currentYear : Nat
deriving DecidableEq, Repr

/-- `frontend.NewWitness`: map the assignment's integers to canonical field
elements. -/
def frontendNewWitness (c : AgeCheckCircuit) : FullWitness :=
  { birthYear := toF c.BirthYear, currentYear := toF c.CurrentYear }

/-- `witness.Public()`: the public part of a witness, here the single public
variable `CurrentYear`. -/
def witnessPublic (w : FullWitness) : Nat := w.currentYear

/-- Evaluation of `AgeCheckCircuit.Define` on a witness: the constraints
`age := api.Sub(CurrentYear, BirthYear); api.AssertIsEqual(api.Cmp(age, 18), 1)`
hold exactly when the comparison result equals `1`. -/
def AgeCheckCircuit.DefineHolds (w : FullWitness) : Bool :=
  apiCmp (apiSub w.currentYear w.birthYear) 18 == 1

/-- Errors surfaced by the gnark backend calls the program makes. -/
inductive GnarkError where
  /-- `groth16.Prove` fails because a constraint of the compiled system is
  not satisfied by the witness. -/
  | constraintNotSatisfied
  /-- `groth16.Verify` rejects the proof. -/
  | invalidProof
deriving DecidableEq, Repr

/-- The constraint system compiled by `frontend.Compile`; the program
compiles exactly one circuit, `AgeCheckCircuit`. -/
inductive ConstraintSystem where
  | ageCheck
deriving DecidableEq, Repr

/-- A groth16 proving key; `setupRun` identifies the `groth16.Setup` run
that produced it (setup is randomized, so distinct runs yield distinct,
mutually incompatible keys). -/
structure ProvingKey where
  setupRun : Nat
deriving DecidableEq, Repr

/-- A groth16 verifying key from the setup run `setupRun`. -/
structure VerifyingKey where
  setupRun : Nat
deriving DecidableEq, Repr

/-- Modelled from the spec: the backend's opaque `groth16.Proof`, "bound to
exactly one Assignment's public portion (`currentYear`) and one KeyPair";
it records the public input and the setup run it was produced under. -/
structure Groth16Proof where
  setupRun : Nat
  publicInput : Nat
deriving DecidableEq, Repr

/-- Modelled from the spec: `groth16.Prove(r1cs, pk, witness)`. By groth16
completeness it succeeds exactly when the witness satisfies the compiled
constraints, and the resulting proof is bound to the witness's public part
and to `pk`'s setup run. -/
def groth16Prove (cs : ConstraintSystem) (pk : ProvingKey) (w : FullWitness) :
    Except GnarkError Groth16Proof :=
  match cs with
  | .ageCheck =>
      if AgeCheckCircuit.DefineHolds w then
        .ok { setupRun := pk.setupRun, publicInput := witnessPublic w }
      else
        .error .constraintNotSatisfied

/-- Modelled from the spec: `groth16.Verify(proof, vk, publicWitness)`. By
groth16 soundness/completeness it accepts exactly a proof produced under
the same setup run as `vk` and bound to the same public witness. -/
def groth16Verify (proof : Groth16Proof) (vk : VerifyingKey) (pub : Nat) :
    Except GnarkError Unit :=
  if proof.setupRun = vk.setupRun ∧ proof.publicInput = pub then .ok ()
  else .error .invalidProof

/-- `InitCircuit`: compile `AgeCheckCircuit` (deterministic) and run
`groth16.Setup` once; the randomized setup run is an explicit parameter, and
the proving and verifying keys of one call originate from that same run. -/
def InitCircuit (setupRun : Nat) : ProvingKey × VerifyingKey × ConstraintSystem :=
  ({ setupRun := setupRun }, { setupRun := setupRun }, .ageCheck)

/-- A value of Go's `interface{}` as stored in a subject claims map: the
program only ever distinguishes strings (via the `.(string)` assertion)
from everything else. -/
inductive GoValue where
  | str (s : String)
  | other
deriving DecidableEq, Repr

/-- A Go `map[string]interface{}` of subject claims, as an association
list. -/
abbrev Subject := List (String × GoValue)

/-- Map lookup on a subject claims map. -/
def Subject.get (m : Subject) (k : String) : Option GoValue :=
  List.lookup k m

/-- The result of `time.Now()` at the issuance call, restricted to the two
observations the program makes of it. -/
structure TimeNow where
  /-- `time.Now().Year()` -/
  year : Int
  /-- `time.Now().UnixNano()` -/
  unixNano : Int
deriving DecidableEq, Repr

/-- `Credential`: the verifiable-credential envelope. `Proof` is a
`*groth16.Proof`, hence an `Option` (nil pointer = `none`). -/
structure Credential where
  ID : String
  «Type» : List String
  Issuer : String
  IssuanceDate : TimeNow
  Subject : Subject
  Proof : Option Groth16Proof
deriving DecidableEq, Repr

/-- `Wallet`: the in-memory credential store. -/
structure Wallet where
  Credentials : List Credential
deriving DecidableEq, Repr

/-- `NewWallet()`: an empty wallet (the error result is always nil). -/
def NewWallet : Wallet := { Credentials := [] }

/-- The error results of `Wallet.IssueCredential`, one constructor per
`fmt.Errorf` site. -/
inductive GoError where
  /-- "birthDate field is missing or not a string" -/
  | missingBirthDate
  /-- "failed to parse birth year: ..." -/
  | parseBirthYear
  /-- "failed to generate ZKP proof: ..." wrapping the backend error -/
  | genProof (e : GnarkError)
deriving DecidableEq, Repr

/-- Decimal digits of a character run folded to a number. -/
def digitsVal (ds : List Char) : Nat :=
  ds.foldl (fun acc c => 10 * acc + (c.toNat - '0'.toNat)) 0

/-- The unsigned-number part of `fmt.Sscanf`'s `%d`: a non-empty leading
run of decimal digits; trailing characters are left unconsumed. -/
def scanDigits (cs : List Char) : Option Nat :=
  let ds := cs.takeWhile Char.isDigit
  if ds.isEmpty then none else some (digitsVal ds)

/-- `fmt.Sscanf(s, "%d", &n)` scanning into a Go 64-bit `int`: skip leading
blank space, accept an optional sign and a non-empty run of decimal digits,
ignore the rest of the string; fails (non-nil error) when no digit is found
or when the scanned value overflows a 64-bit int (`strconv`'s
out-of-range error, surfaced by the `fmt` scanner). -/
def sscanfInt (s : String) : Option Int :=
  let cs := s.data.dropWhile (fun c => c = ' ' ∨ c = '\t')
  let scanned : Option Int :=
    match cs with
    | '-' :: rest => (scanDigits rest).map (fun n => -(n : Int))
    | '+' :: rest => (scanDigits rest).map (fun n => (n : Int))
    | _ => (scanDigits cs).map (fun n => (n : Int))
  match scanned with
  | some v =>
      if (-9223372036854775808 : Int) ≤ v ∧ v ≤ 9223372036854775807 then
        some v
      else none
  | none => none

/-- `generateZKProof(pk, r1cs, birthYear, currentYear)`: build the
assignment, derive the full witness, and run `groth16.Prove`; on success
return the proof together with the assignment. -/
def generateZKProof (pk : ProvingKey) (cs : ConstraintSystem)
    (birthYear currentYear : Int) :
    Except GnarkError (Groth16Proof × AgeCheckCircuit) :=
  let assignment : AgeCheckCircuit :=
    { BirthYear := birthYear, CurrentYear := currentYear }
  let witness := frontendNewWitness assignment
  match groth16Prove cs pk witness with
  | .error e => .error e
  | .ok proof => .ok (proof, assignment)

/-- The `cred` record literal assembled by `IssueCredential` after a
successful proof generation. -/
def assembledCredential (subject : Subject) (now : TimeNow)
    (zkpProof : Groth16Proof) : Credential :=
  { ID := "urn:uuid:" ++ toString now.unixNano
    «Type» := ["VerifiableCredential", "eIDASIdentityCredential"]
    Issuer := "did:example:issuer123"
    IssuanceDate := now
    Subject := subject
    Proof := some zkpProof }

/-- `Wallet.IssueCredential(pk, vk, r1cs, subject)` at the instant `now`:
extract the `birthDate` claim (must be a string), scan its leading integer
as the birth year, take the current year from the clock, generate the ZK
proof, assemble the credential, and append it to the wallet's list. The
returned pair is the updated wallet (Go mutates the receiver) and the
result triple collapsed into an `Except`. -/
def Wallet.IssueCredential (w : Wallet) (pk : ProvingKey) (vk : VerifyingKey)
    (cs : ConstraintSystem) (subject : Subject) (now : TimeNow) :
    Wallet × Except GoError (Credential × AgeCheckCircuit) :=
  match subject.get "birthDate" with
  | some (.str s) =>
      match sscanfInt s with
      | some birthYear =>
          let currentYear := now.year
          match generateZKProof pk cs birthYear currentYear with
          | .error e => (w, .error (.genProof e))
          | .ok (zkpProof, circuit) =>
              let cred := assembledCredential subject now zkpProof
              ({ Credentials := w.Credentials ++ [cred] }, .ok (cred, circuit))
      | none => (w, .error .parseBirthYear)
  | _ => (w, .error .missingBirthDate)

/-- `verifyZKProof(circuit, proof, vk)`: rebuild the full witness from the
circuit assignment, take its public part, and run `groth16.Verify`. -/
def verifyZKProof (circuit : AgeCheckCircuit) (proof : Groth16Proof)
    (vk : VerifyingKey) : Except GnarkError Unit :=
  let witness := frontendNewWitness circuit
  let publicWitness := witnessPublic witness
  groth16Verify proof vk publicWitness

/-- `VerifyCredential(circuit, cred, vk)`: verify `cred.Proof`; the result
is `(false, err)` on a backend error and `(true, nil)` otherwise. A nil
`cred.Proof` makes the Go program dereference a nil pointer (panic),
modelled as `none`. -/
def VerifyCredential (circuit : AgeCheckCircuit) (cred : Credential)
    (vk : VerifyingKey) : Option (Bool × Option GnarkError) :=
  match cred.Proof with
  | none => none
  | some p =>
      match verifyZKProof circuit p vk with
      | .error e => some (false, some e)
      | .ok _ => some (true, none)

/-! ### Arithmetic bridge lemmas -/

/-- `api.Sub` on the canonical images of two integers is the canonical image
of their integer difference. -/
lemma apiSub_toF (a b : Int) :
    apiSub (toF a) (toF b) = ((a - b) % (bn254r : Int)).toNat := by
  unfold apiSub toF
  simp only [bn254r]
  omega

/-- `api.Cmp` returns the success code `1` exactly on strictly greater
canonical representatives. -/
lemma apiCmp_eq_one_iff (a b : Nat) : apiCmp a b = 1 ↔ b < a := by
  unfold apiCmp
  split_ifs with h1 h2
  · exact iff_of_true rfl h1
  · exact iff_of_false (by decide) h1
  · exact iff_of_false (by decide) h1

/-- The circuit constraints hold on the witness derived from an integer
assignment exactly when the field-reduced difference of the years exceeds
`18`. -/
lemma DefineHolds_iff (byr cyr : Int) :
    AgeCheckCircuit.DefineHolds
      (frontendNewWitness { BirthYear := byr, CurrentYear := cyr }) = true ↔
    18 < ((cyr - byr) % (bn254r : Int)).toNat := by
  simp only [AgeCheckCircuit.DefineHolds, frontendNewWitness, beq_iff_eq]
  rw [apiSub_toF, apiCmp_eq_one_iff]

/-- When `18 < cyr - byr < bn254r`, the circuit constraints hold. -/
lemma DefineHolds_of_gt18 (byr cyr : Int) (h18 : 18 < cyr - byr)
    (hlt : cyr - byr < (bn254r : Int)) :
    AgeCheckCircuit.DefineHolds
      (frontendNewWitness { BirthYear := byr, CurrentYear := cyr }) = true := by
  rw [DefineHolds_iff]
  rw [Int.emod_eq_of_lt (by omega) hlt]
  omega

/-- When `0 ≤ cyr - byr < 18`, the circuit constraints fail. -/
lemma DefineHolds_false_of_lt18 (byr cyr : Int) (h0 : 0 ≤ cyr - byr)
    (h18 : cyr - byr < 18) :
    AgeCheckCircuit.DefineHolds
      (frontendNewWitness { BirthYear := byr, CurrentYear := cyr }) = false := by
  rw [Bool.eq_false_iff]
  intro hcon
  rw [DefineHolds_iff] at hcon
  rw [Int.emod_eq_of_lt h0 (by simp only [bn254r] at *; omega)] at hcon
  omega

/-- When the age predicate holds strictly, `generateZKProof` succeeds and
returns the proof bound to the public year and the assignment. -/
lemma generateZKProof_ok (pk : ProvingKey) (byr cyr : Int)
    (h18 : 18 < cyr - byr) (hlt : cyr - byr < (bn254r : Int)) :
    generateZKProof pk .ageCheck byr cyr =
      .ok ({ setupRun := pk.setupRun, publicInput := toF cyr },
        { BirthYear := byr, CurrentYear := cyr }) := by
  simp only [generateZKProof, groth16Prove]
  rw [DefineHolds_of_gt18 byr cyr h18 hlt]
  rfl

/-- When the age is non-negative and below the threshold,
`generateZKProof` fails with the constraint violation. -/
lemma generateZKProof_err (pk : ProvingKey) (byr cyr : Int)
    (h0 : 0 ≤ cyr - byr) (h18 : cyr - byr < 18) :
    generateZKProof pk .ageCheck byr cyr = .error .constraintNotSatisfied := by
  simp only [generateZKProof, groth16Prove]
  rw [DefineHolds_false_of_lt18 byr cyr h0 h18]
  rfl

/-! ### Shape of `IssueCredential`'s results -/

/-- Unfolding equation: missing `birthDate` claim. -/
lemma IssueCredential_eq_of_missing (w : Wallet) (pk : ProvingKey)
    (vk : VerifyingKey) (cs : ConstraintSystem) (subject : Subject)
    (now : TimeNow) (hg : Subject.get subject "birthDate" = none) :
    Wallet.IssueCredential w pk vk cs subject now =
      (w, .error .missingBirthDate) := by
  simp only [Wallet.IssueCredential, hg]

/-- Unfolding equation: `birthDate` claim present but not a string. -/
lemma IssueCredential_eq_of_notStr (w : Wallet) (pk : ProvingKey)
    (vk : VerifyingKey) (cs : ConstraintSystem) (subject : Subject)
    (now : TimeNow) (hg : Subject.get subject "birthDate" = some .other) :
    Wallet.IssueCredential w pk vk cs subject now =
      (w, .error .missingBirthDate) := by
  simp only [Wallet.IssueCredential, hg]

/-- Unfolding equation: `birthDate` string with no leading integer. -/
lemma IssueCredential_eq_of_noParse (w : Wallet) (pk : ProvingKey)
    (vk : VerifyingKey) (cs : ConstraintSystem) (subject : Subject)
    (now : TimeNow) (s : String)
    (hg : Subject.get subject "birthDate" = some (.str s))
    (hp : sscanfInt s = none) :
    Wallet.IssueCredential w pk vk cs subject now =
      (w, .error .parseBirthYear) := by
  simp only [Wallet.IssueCredential, hg, hp]

/-- Unfolding equation: proof generation fails. -/
lemma IssueCredential_eq_of_proveErr (w : Wallet) (pk : ProvingKey)
    (vk : VerifyingKey) (cs : ConstraintSystem) (subject : Subject)
    (now : TimeNow) (s : String) (n : Int) (e : GnarkError)
    (hg : Subject.get subject "birthDate" = some (.str s))
    (hp : sscanfInt s = some n)
    (hz : generateZKProof pk cs n now.year = .error e) :
    Wallet.IssueCredential w pk vk cs subject now =
      (w, .error (.genProof e)) := by
  simp only [Wallet.IssueCredential, hg, hp, hz]

/-- Unfolding equation: proof generation succeeds, the credential is
assembled and appended. -/
lemma IssueCredential_eq_of_proveOk (w : Wallet) (pk : ProvingKey)
    (vk : VerifyingKey) (cs : ConstraintSystem) (subject : Subject)
    (now : TimeNow) (s : String) (n : Int) (zp : Groth16Proof)
    (circ0 : AgeCheckCircuit)
    (hg : Subject.get subject "birthDate" = some (.str s))
    (hp : sscanfInt s = some n)
    (hz : generateZKProof pk cs n now.year = .ok (zp, circ0)) :
    Wallet.IssueCredential w pk vk cs subject now =
      ({ Credentials := w.Credentials ++ [assembledCredential subject now zp] },
        .ok (assembledCredential subject now zp, circ0)) := by
  simp only [Wallet.IssueCredential, hg, hp, hz]

/-- On any successful issuance the updated wallet is the old list with the
new credential appended, and the credential carries the fixed envelope
fields assembled by `IssueCredential`. -/
lemma IssueCredential_ok_spec (w : Wallet) (pk : ProvingKey) (vk : VerifyingKey)
    (cs : ConstraintSystem) (subject : Subject) (now : TimeNow)
    (cred : Credential) (circ : AgeCheckCircuit)
    (h : (Wallet.IssueCredential w pk vk cs subject now).2 = .ok (cred, circ)) :
    (Wallet.IssueCredential w pk vk cs subject now).1.Credentials
        = w.Credentials ++ [cred] ∧
      cred.«Type» = ["VerifiableCredential", "eIDASIdentityCredential"] ∧
      cred.Subject = subject ∧
      cred.Proof.isSome = true := by
  rcases hg : Subject.get subject "birthDate" with _ | v
  · rw [IssueCredential_eq_of_missing w pk vk cs subject now hg] at h
    simp at h
  · rcases v with s | _
    · rcases hp : sscanfInt s with _ | n
      · rw [IssueCredential_eq_of_noParse w pk vk cs subject now s hg hp] at h
        simp at h
      · rcases hz : generateZKProof pk cs n now.year with e | pr
        · rw [IssueCredential_eq_of_proveErr w pk vk cs subject now s n e
            hg hp hz] at h
          simp at h
        · rcases pr with ⟨zp, circ0⟩
          rw [IssueCredential_eq_of_proveOk w pk vk cs subject now s n zp
            circ0 hg hp hz] at h ⊢
          simp only [Except.ok.injEq, Prod.mk.injEq] at h
          obtain ⟨hc, -⟩ := h
          subst hc
          exact ⟨rfl, rfl, rfl, rfl⟩
    · rw [IssueCredential_eq_of_notStr w pk vk cs subject now hg] at h
      simp at h

/-- Whenever issuance fails, the wallet is returned unchanged. -/
lemma IssueCredential_err_spec (w : Wallet) (pk : ProvingKey) (vk : VerifyingKey)
    (cs : ConstraintSystem) (subject : Subject) (now : TimeNow) (e : GoError)
    (h : (Wallet.IssueCredential w pk vk cs subject now).2 = .error e) :
    (Wallet.IssueCredential w pk vk cs subject now).1 = w := by
  rcases hg : Subject.get subject "birthDate" with _ | v
  · rw [IssueCredential_eq_of_missing w pk vk cs subject now hg]
  · rcases v with s | _
    · rcases hp : sscanfInt s with _ | n
      · rw [IssueCredential_eq_of_noParse w pk vk cs subject now s hg hp]
      · rcases hz : generateZKProof pk cs n now.year with e2 | pr
        · rw [IssueCredential_eq_of_proveErr w pk vk cs subject now s n e2
            hg hp hz]
        · rcases pr with ⟨zp, circ0⟩
          rw [IssueCredential_eq_of_proveOk w pk vk cs subject now s n zp
            circ0 hg hp hz] at h
          simp at h
    · rw [IssueCredential_eq_of_notStr w pk vk cs subject now hg]

/-! ### Claims -/

/-- C1 counterexample: at the boundary `currentYear - birthYear = 18` the
claim fails. The subject born `2006-01-01` is exactly 18 in 2024, yet
`IssueCredential` returns a proof-generation error, because the circuit
asserts `Cmp(age, 18) = 1`, i.e. strictly `age > 18`. -/
theorem C1_boundary_age_18_fails :
    sscanfInt "2006-01-01" = some 2006 ∧
    (18 : Int) ≤ (2024 : Int) - 2006 ∧
    (Wallet.IssueCredential NewWallet ⟨0⟩ ⟨0⟩ .ageCheck
        [("birthDate", GoValue.str "2006-01-01")] ⟨2024, 7⟩).2 =
      .error (.genProof .constraintNotSatisfied) := by
  refine ⟨by decide, by decide, ?_⟩
  decide

/-- C1 (amended): completeness of issuance holds strictly above the
threshold: for every subject claims map with a parseable `birthDate`, if
`currentYear - birthYear > 18` (and the difference is below the field
order), `IssueCredential` succeeds and the resulting credential's proof
verifies as true under the verifying key of the same setup run. -/
theorem C1_issue_complete_over_18 (setup : Nat) (w : Wallet)
    (subject : Subject) (s : String) (byr : Int) (now : TimeNow)
    (hclaim : Subject.get subject "birthDate" = some (GoValue.str s))
    (hparse : sscanfInt s = some byr)
    (h18 : 18 < now.year - byr)
    (hlt : now.year - byr < (bn254r : Int)) :
    ∃ cred circ,
      (Wallet.IssueCredential w ⟨setup⟩ ⟨setup⟩ .ageCheck subject now).2 =
          .ok (cred, circ) ∧
        cred.Proof = some { setupRun := setup, publicInput := toF now.year } ∧
        VerifyCredential circ cred ⟨setup⟩ = some (true, none) := by
  have hz := generateZKProof_ok ⟨setup⟩ byr now.year h18 hlt
  rw [IssueCredential_eq_of_proveOk w ⟨setup⟩ ⟨setup⟩ .ageCheck subject now
    s byr { setupRun := setup, publicInput := toF now.year }
    { BirthYear := byr, CurrentYear := now.year } hclaim hparse hz]
  refine ⟨_, _, rfl, rfl, ?_⟩
  simp [VerifyCredential, assembledCredential, verifyZKProof,
    frontendNewWitness, witnessPublic, groth16Verify]

/-- Witness for C1 (amended): the spec's scenario 1, subject born
`1984-01-01`, current year 2024. -/
theorem C1_issue_complete_over_18_witness :
    ∃ cred circ,
      (Wallet.IssueCredential NewWallet ⟨0⟩ ⟨0⟩ .ageCheck
          [("birthDate", GoValue.str "1984-01-01")] ⟨2024, 7⟩).2 =
          .ok (cred, circ) ∧
        cred.Proof = some { setupRun := 0, publicInput := toF 2024 } ∧
        VerifyCredential circ cred ⟨0⟩ = some (true, none) :=
  C1_issue_complete_over_18 0 NewWallet
    [("birthDate", GoValue.str "1984-01-01")] "1984-01-01" 1984 ⟨2024, 7⟩
    (by decide) (by decide) (by decide) (by decide)

/-- C2 counterexample: a birth year in the future satisfies
`currentYear - birthYear < 18`, yet issuance succeeds with a proof: the
field-arithmetic difference wraps around to `bn254r - 1 > 18`. -/
theorem C2_wraparound_issues_proof :
    sscanfInt "2025-01-01" = some 2025 ∧
    (2024 : Int) - 2025 < 18 ∧
    ∃ cred circ,
      (Wallet.IssueCredential NewWallet ⟨0⟩ ⟨0⟩ .ageCheck
          [("birthDate", GoValue.str "2025-01-01")] ⟨2024, 7⟩).2 =
        .ok (cred, circ) ∧ cred.Proof.isSome = true :=
  ⟨by decide, by decide, _, _, rfl, rfl⟩

/-- C2 (amended): soundness of issuance holds for non-negative ages: for
every subject claims map whose parsed birth year satisfies
`0 ≤ currentYear - birthYear < 18`, `IssueCredential` returns the
proof-generation error wrapping the backend's unsatisfied-constraint
error, returns no credential, and leaves the wallet unchanged. -/
theorem C2_issue_fails_under_18 (w : Wallet) (pk : ProvingKey)
    (vk : VerifyingKey) (subject : Subject) (s : String) (byr : Int)
    (now : TimeNow)
    (hclaim : Subject.get subject "birthDate" = some (GoValue.str s))
    (hparse : sscanfInt s = some byr)
    (h0 : 0 ≤ now.year - byr) (h18 : now.year - byr < 18) :
    (Wallet.IssueCredential w pk vk .ageCheck subject now).2 =
        .error (.genProof .constraintNotSatisfied) ∧
      (Wallet.IssueCredential w pk vk .ageCheck subject now).1 = w := by
  have hz := generateZKProof_err pk byr now.year h0 h18
  rw [IssueCredential_eq_of_proveErr w pk vk .ageCheck subject now s byr
    .constraintNotSatisfied hclaim hparse hz]
  exact ⟨rfl, rfl⟩

/-- Witness for C2 (amended): the spec's scenario 2, subject born
`2010-01-01`, current year 2024. -/
theorem C2_issue_fails_under_18_witness :
    (Wallet.IssueCredential NewWallet ⟨0⟩ ⟨0⟩ .ageCheck
        [("birthDate", GoValue.str "2010-01-01")] ⟨2024, 7⟩).2 =
        .error (.genProof .constraintNotSatisfied) ∧
      (Wallet.IssueCredential NewWallet ⟨0⟩ ⟨0⟩ .ageCheck
          [("birthDate", GoValue.str "2010-01-01")] ⟨2024, 7⟩).1 = NewWallet :=
  C2_issue_fails_under_18 NewWallet ⟨0⟩ ⟨0⟩
    [("birthDate", GoValue.str "2010-01-01")] "2010-01-01" 2010 ⟨2024, 7⟩
    (by decide) (by decide) (by decide) (by decide)

/-- C3: the code stores the whole subject claims map, raw `birthDate`
included, in the returned credential next to the proof. On the successful
issuance for birth date `1984-01-01`, the credential's subject still maps
`birthDate` to that plaintext string. -/
theorem C3_credential_contains_birthDate :
    ∃ cred circ,
      (Wallet.IssueCredential NewWallet ⟨0⟩ ⟨0⟩ .ageCheck
          [("birthDate", GoValue.str "1984-01-01")] ⟨2024, 7⟩).2 =
        .ok (cred, circ) ∧
      Subject.get cred.Subject "birthDate" = some (GoValue.str "1984-01-01") ∧
      cred.Proof.isSome = true :=
  ⟨_, _, rfl, rfl, rfl⟩

/-- C4: for `currentYear < birthYear` the circuit's comparison does NOT
evaluate to "not satisfied": the field-reduced age wraps to `bn254r - 1`,
the constraint `Cmp(age, 18) = 1` holds, proof generation succeeds, and the
resulting proof verifies under the matching key. -/
theorem C4_negative_age_produces_verifying_proof :
    (2024 : Int) < 2025 ∧
    ∃ pr circ,
      generateZKProof ⟨0⟩ .ageCheck 2025 2024 = .ok (pr, circ) ∧
      verifyZKProof circ pr ⟨0⟩ = .ok () :=
  ⟨by decide, _, _, rfl, rfl⟩

/-- C5 counterexample: issuing a credential does have a side effect beyond
returning it — `IssueCredential` itself appends to the wallet's credential
list, so the wallet returned from a successful call differs from the input
wallet. -/
theorem C5_issuer_mutates_wallet :
    (Wallet.IssueCredential NewWallet ⟨0⟩ ⟨0⟩ .ageCheck
        [("birthDate", GoValue.str "1984-01-01")] ⟨2024, 7⟩).1 ≠ NewWallet := by
  decide

/-- C5 (amended): the only side effect of issuance is the issuer's own
append: on success the wallet's credential list becomes the old list with
exactly the returned credential appended (the caller does not append). -/
theorem C5_issue_appends_issued_credential (w : Wallet) (pk : ProvingKey)
    (vk : VerifyingKey) (cs : ConstraintSystem) (subject : Subject)
    (now : TimeNow) (cred : Credential) (circ : AgeCheckCircuit)
    (h : (Wallet.IssueCredential w pk vk cs subject now).2 = .ok (cred, circ)) :
    (Wallet.IssueCredential w pk vk cs subject now).1.Credentials
      = w.Credentials ++ [cred] :=
  (IssueCredential_ok_spec w pk vk cs subject now cred circ h).1

/-- Witness for C5 (amended): the concrete successful issuance of
scenario 1 appends exactly the issued credential to the empty wallet. -/
theorem C5_issue_appends_issued_credential_witness :
    (Wallet.IssueCredential NewWallet ⟨0⟩ ⟨0⟩ .ageCheck
        [("birthDate", GoValue.str "1984-01-01")] ⟨2024, 7⟩).1.Credentials
      = NewWallet.Credentials ++
        [assembledCredential [("birthDate", GoValue.str "1984-01-01")] ⟨2024, 7⟩
          { setupRun := 0, publicInput := toF 2024 }] :=
  C5_issue_appends_issued_credential NewWallet ⟨0⟩ ⟨0⟩ .ageCheck
    [("birthDate", GoValue.str "1984-01-01")] ⟨2024, 7⟩ _ _ rfl

/-- C6 counterexample: the public assignment is not reconstructed from the
credential: with one and the same credential (same proof) and one and the
same verifying key, verification answers true or false depending on the
`CurrentYear` in the separately supplied circuit assignment, so the public
witness cannot be a function of the credential's contents. -/
theorem C6_public_witness_not_from_credential :
    VerifyCredential { BirthYear := 1984, CurrentYear := 2024 }
        { ID := "urn:uuid:7", «Type» := ["VerifiableCredential"],
          Issuer := "did:example:issuer123", IssuanceDate := ⟨2024, 7⟩,
          Subject := [], Proof := some { setupRun := 0, publicInput := toF 2024 } }
        ⟨0⟩ = some (true, none) ∧
    VerifyCredential { BirthYear := 1984, CurrentYear := 2030 }
        { ID := "urn:uuid:7", «Type» := ["VerifiableCredential"],
          Issuer := "did:example:issuer123", IssuanceDate := ⟨2024, 7⟩,
          Subject := [], Proof := some { setupRun := 0, publicInput := toF 2024 } }
        ⟨0⟩ = some (false, some .invalidProof) := by
  constructor <;> decide

/-- C6 (amended): verification derives the public witness from the
`CurrentYear` of the circuit-assignment argument (the credential carries no
public-statement field), and neither the derived public witness nor the
verification outcome depends on the private `BirthYear` of that
assignment. -/
theorem C6_public_witness_ignores_private (b1 b2 cy : Int)
    (pr : Groth16Proof) (vk : VerifyingKey) :
    witnessPublic (frontendNewWitness { BirthYear := b1, CurrentYear := cy })
        = toF cy ∧
    verifyZKProof { BirthYear := b1, CurrentYear := cy } pr vk =
      verifyZKProof { BirthYear := b2, CurrentYear := cy } pr vk :=
  ⟨rfl, rfl⟩

/-- C7 counterexample: `IssueCredential` does not require a `YYYY-MM-DD`
date. The string `"1984"`, which is no calendar date, is accepted: its
leading integer is scanned as the birth year and a proof is created. -/
theorem C7_non_date_string_accepted :
    sscanfInt "1984" = some 1984 ∧
    ∃ cred circ,
      (Wallet.IssueCredential NewWallet ⟨0⟩ ⟨0⟩ .ageCheck
          [("birthDate", GoValue.str "1984")] ⟨2024, 7⟩).2 = .ok (cred, circ) ∧
      cred.Proof.isSome = true :=
  ⟨by decide, _, _, rfl, rfl⟩

/-- C7 (amended): the extraction contract actually implemented:
`"not-a-date"` has no leading integer and is rejected, and a leading digit
run overflowing a 64-bit int (e.g. `"9223372036854775808"`) is rejected
with the same scan error; the missing-claim error occurs exactly when the
`birthDate` claim is absent or not a string; the parse error occurs exactly
when the claim is a string the `Sscanf %d` scan fails on (no leading
decimal integer, or leading integer out of the 64-bit range — any other
string with a leading integer, date or not, is accepted). -/
theorem C7_claim_extraction_contract (w : Wallet) (pk : ProvingKey)
    (vk : VerifyingKey) (cs : ConstraintSystem) (subject : Subject)
    (now : TimeNow) :
    sscanfInt "not-a-date" = none ∧
    sscanfInt "9223372036854775808" = none ∧
    ((Wallet.IssueCredential w pk vk cs subject now).2 =
        .error .missingBirthDate ↔
      ∀ s, Subject.get subject "birthDate" ≠ some (GoValue.str s)) ∧
    ((Wallet.IssueCredential w pk vk cs subject now).2 =
        .error .parseBirthYear ↔
      ∃ s, Subject.get subject "birthDate" = some (GoValue.str s) ∧
        sscanfInt s = none) := by
  refine ⟨by decide, by decide, ?_, ?_⟩
  · rcases hg : Subject.get subject "birthDate" with _ | v
    · rw [IssueCredential_eq_of_missing w pk vk cs subject now hg]
      simp
    · rcases v with s | _
      · refine iff_of_false ?_ (fun hAll => hAll s rfl)
        rcases hp : sscanfInt s with _ | n
        · rw [IssueCredential_eq_of_noParse w pk vk cs subject now s hg hp]
          simp
        · rcases hz : generateZKProof pk cs n now.year with e | pr
          · rw [IssueCredential_eq_of_proveErr w pk vk cs subject now s n e
              hg hp hz]
            simp
          · rcases pr with ⟨zp, circ0⟩
            rw [IssueCredential_eq_of_proveOk w pk vk cs subject now s n zp
              circ0 hg hp hz]
            simp
      · rw [IssueCredential_eq_of_notStr w pk vk cs subject now hg]
        simp
  · rcases hg : Subject.get subject "birthDate" with _ | v
    · rw [IssueCredential_eq_of_missing w pk vk cs subject now hg]
      simp
    · rcases v with s | _
      · rcases hp : sscanfInt s with _ | n
        · rw [IssueCredential_eq_of_noParse w pk vk cs subject now s hg hp]
          exact iff_of_true rfl ⟨s, rfl, hp⟩
        · refine iff_of_false ?_ ?_
          · rcases hz : generateZKProof pk cs n now.year with e | pr
            · rw [IssueCredential_eq_of_proveErr w pk vk cs subject now s n e
                hg hp hz]
              simp
            · rcases pr with ⟨zp, circ0⟩
              rw [IssueCredential_eq_of_proveOk w pk vk cs subject now s n zp
                circ0 hg hp hz]
              simp
          · rintro ⟨s2, hs2, hps2⟩
            obtain rfl : s = s2 := by
              simpa using hs2
            rw [hp] at hps2
            exact Option.noConfusion hps2
      · rw [IssueCredential_eq_of_notStr w pk vk cs subject now hg]
        simp

/-- C8 counterexample: a successfully issued credential carries the tags
`VerifiableCredential` and `eIDASIdentityCredential`; it does not carry
`AgeEligibilityCredential`. -/
theorem C8_no_age_eligibility_tag :
    ∃ cred circ,
      (Wallet.IssueCredential NewWallet ⟨0⟩ ⟨0⟩ .ageCheck
          [("birthDate", GoValue.str "1984-01-01")] ⟨2024, 7⟩).2 =
        .ok (cred, circ) ∧
      cred.«Type» = ["VerifiableCredential", "eIDASIdentityCredential"] ∧
      "AgeEligibilityCredential" ∉ cred.«Type» :=
  ⟨_, _, rfl, rfl, by decide⟩

/-- C8 (amended): every credential produced by issuance carries exactly the
credential-type tags `VerifiableCredential` and `eIDASIdentityCredential`
(in that order). -/
theorem C8_type_tags (w : Wallet) (pk : ProvingKey) (vk : VerifyingKey)
    (cs : ConstraintSystem) (subject : Subject) (now : TimeNow)
    (cred : Credential) (circ : AgeCheckCircuit)
    (h : (Wallet.IssueCredential w pk vk cs subject now).2 = .ok (cred, circ)) :
    cred.«Type» = ["VerifiableCredential", "eIDASIdentityCredential"] :=
  (IssueCredential_ok_spec w pk vk cs subject now cred circ h).2.1

/-- Witness for C8 (amended) at the concrete scenario-1 issuance. -/
theorem C8_type_tags_witness :
    (assembledCredential [("birthDate", GoValue.str "1984-01-01")] ⟨2024, 7⟩
        { setupRun := 0, publicInput := toF 2024 }).«Type» =
      ["VerifiableCredential", "eIDASIdentityCredential"] :=
  C8_type_tags NewWallet ⟨0⟩ ⟨0⟩ .ageCheck
    [("birthDate", GoValue.str "1984-01-01")] ⟨2024, 7⟩ _ _ rfl

/-- C9: atomicity of issuance on error — whenever `IssueCredential`
returns an error, the wallet is exactly as it was before the call; the
append happens only after a proof has been generated. -/
theorem C9_wallet_unchanged_on_error (w : Wallet) (pk : ProvingKey)
    (vk : VerifyingKey) (cs : ConstraintSystem) (subject : Subject)
    (now : TimeNow) (e : GoError)
    (h : (Wallet.IssueCredential w pk vk cs subject now).2 = .error e) :
    (Wallet.IssueCredential w pk vk cs subject now).1 = w :=
  IssueCredential_err_spec w pk vk cs subject now e h

/-- Witness for C9: the malformed-claim scenario, `birthDate` set to
`"not-a-date"`, leaves the wallet untouched. -/
theorem C9_wallet_unchanged_on_error_witness :
    (Wallet.IssueCredential NewWallet ⟨0⟩ ⟨0⟩ .ageCheck
        [("birthDate", GoValue.str "not-a-date")] ⟨2024, 7⟩).1 = NewWallet :=
  C9_wallet_unchanged_on_error NewWallet ⟨0⟩ ⟨0⟩ .ageCheck
    [("birthDate", GoValue.str "not-a-date")] ⟨2024, 7⟩ .parseBirthYear rfl

/-- C10: verification depends on the credential only through its `Proof`
field: two credentials holding the same proof value verify identically
under the same circuit assignment and verifying key, whatever their `ID`,
`Type`, `Issuer`, `IssuanceDate` and `Subject`. -/
theorem C10_verify_ignores_envelope (circ : AgeCheckCircuit)
    (vk : VerifyingKey) (c1 c2 : Credential) (h : c1.Proof = c2.Proof) :
    VerifyCredential circ c1 vk = VerifyCredential circ c2 vk := by
  unfold VerifyCredential
  rw [h]

/-- Witness for C10: two credentials differing in every envelope field but
holding the same proof verify identically. -/
theorem C10_verify_ignores_envelope_witness :
    VerifyCredential { BirthYear := 1984, CurrentYear := 2024 }
        { ID := "urn:uuid:1", «Type» := ["VerifiableCredential"],
          Issuer := "did:example:issuer123", IssuanceDate := ⟨2024, 1⟩,
          Subject := [("birthDate", GoValue.str "1984-01-01")],
          Proof := some { setupRun := 0, publicInput := toF 2024 } } ⟨0⟩ =
      VerifyCredential { BirthYear := 1984, CurrentYear := 2024 }
        { ID := "urn:uuid:2", «Type» := [], Issuer := "someone-else",
          IssuanceDate := ⟨2030, 2⟩, Subject := [],
          Proof := some { setupRun := 0, publicInput := toF 2024 } } ⟨0⟩ :=
  C10_verify_ignores_envelope { BirthYear := 1984, CurrentYear := 2024 } ⟨0⟩
    _ _ rfl
